import Mathlib

/-!
Verification development for the BOT_ELITUT house-bot repository.

The definitions below are a shallow embedding of the authoritative revision
of the bot (`src/bot/main.py`, `src/bot/db.py`, `src/bot/loader.py`):

* the per-user concierge rate limiter (`allow_concierge_message`,
  main.py lines 110-128);
* the path-canonicalising admin content write (the pending-edit branch of
  `admin_router`, main.py lines 992-1014);
* the access database (`Database.upsert_user_access`, `Database.consume_code`,
  db.py lines 54-83), with timestamps modelled as integer seconds and
  `timedelta(days=d)` as `d * 86400` seconds;
* the code-redemption step of the router (`process_code`, main.py 199-213);
* the guest-facing dispatch (`callback_router`, `text_router`, `media_router`
  and the `on_media` dispatcher, main.py 477-797 and 1094-1106), with the
  outbound Telegram calls reified as a list of `BotAction`s;
* the admin pending-reply step (`admin_router` lines 861-875).

Side-effecting Python is modelled by explicit state passing: the aiogram FSM
state is `Option FSMState` (aiogram's `state.clear()` is `none`), the
in-memory rate-limit record for one user is `Option RLRec`, and the sqlite
tables are a `DB` structure of finite-support functions plus a usage list.
-/

/-! ## Character and string helpers

Python's `str` operations used by the routers (`strip`, `isdigit`, `lower`,
`in` substring test, `startswith`) are modelled over `List Char` so that all
definitions reduce inside the kernel.
-/

/-- `pat` occurs at the head of `s` (Python `startswith`, list form). -/
def listHasInit : List Char → List Char → Bool
  | [], _ => true
  | _ :: _, [] => false
  | a :: as, b :: bs => a == b && listHasInit as bs

/-- `pat` occurs somewhere in `s` (Python `pat in s`). -/
def containsSub (pat : List Char) : List Char → Bool
  | [] => listHasInit pat []
  | c :: rest => listHasInit pat (c :: rest) || containsSub pat rest

/-- Python `startswith` on strings. -/
def strHasInit (pat s : String) : Bool := listHasInit pat.toList s.toList

/-- Drop the first `n` characters of a string (used after a `startswith`
match, like Python `data.split(":", 1)[1]` on a fixed head). -/
def strDropChars (s : String) (n : Nat) : String := String.mk (s.toList.drop n)

/-- ASCII lowering, the fragment of Python `str.lower()` exercised here
(the Cyrillic keyword lists are already lower case). -/
def lowerChar (c : Char) : Char :=
  if 65 ≤ c.toNat ∧ c.toNat ≤ 90 then Char.ofNat (c.toNat + 32) else c

/-- Python `str.strip()`: drop whitespace from both ends. -/
def stripChars (cs : List Char) : List Char :=
  ((cs.dropWhile Char.isWhitespace).reverse.dropWhile Char.isWhitespace).reverse

/-- Python `str.isdigit()` on the ASCII-digit fragment: non-empty and all
digits. -/
def isDigitsList (cs : List Char) : Bool :=
  !cs.isEmpty && cs.all Char.isDigit

/-- Numeric value of a digit string (Python `int(...)` on a digit string). -/
def digitsVal (cs : List Char) : Nat :=
  cs.foldl (fun a c => a * 10 + (c.toNat - 48)) 0

/-! ## Rate limiter (`allow_concierge_message`, main.py 110-128)

`CONCIERGE_RL` maps a user id to a dict `{first_ts, count, last_ts}`; the
per-user slice of that dict is the `Option RLRec` threaded below.  The
configured limits come from `CONCIERGE_MIN_INTERVAL_SECONDS`,
`CONCIERGE_WINDOW_SECONDS`, `CONCIERGE_MAX_MESSAGES_PER_WINDOW`
(env defaults 2, 60, 20).
-/

/-- One user's `CONCIERGE_RL` record: `{"first_ts": .., "count": .., "last_ts": ..}`. -/
structure RLRec where
  first_ts : Int
  count : Nat
  last_ts : Int
deriving DecidableEq

/-- The three concierge rate-limit settings. -/
structure RLConfig where
  minInterval : Int
  window : Int
  maxPerWindow : Nat
deriving DecidableEq

/-- The env defaults: min interval 2 s, window 60 s, 20 messages per window. -/
def conciergeRLDefaults : RLConfig := ⟨2, 60, 20⟩

/-- `allow_concierge_message` for one user: returns whether the message is
allowed together with the user's updated rate record.  Mirrors main.py
110-128: min-interval check first, then window expiry (reset to count 1),
then the per-window cap, else increment. -/
def allowConciergeMessage (cfg : RLConfig) (rec : Option RLRec) (now : Int) :
    Bool × Option RLRec :=
  match rec with
  | some r =>
    if now - r.last_ts < cfg.minInterval then (false, some r)
    else if now - r.first_ts > cfg.window then (true, some ⟨now, 1, now⟩)
    else if cfg.maxPerWindow ≤ r.count then (false, some r)
    else (true, some ⟨r.first_ts, r.count + 1, now⟩)
  | none => (true, some ⟨now, 1, now⟩)

/-- Run a sequence of concierge submissions through the limiter, counting how
many are accepted and returning the final record. -/
def runConcierge (cfg : RLConfig) : Option RLRec → List Int → Nat × Option RLRec
  | rec, [] => (0, rec)
  | rec, t :: ts =>
    let res := allowConciergeMessage cfg rec t
    let rest := runConcierge cfg res.2 ts
    ((if res.1 then 1 else 0) + rest.1, rest.2)

/-- 21 submission instants spaced exactly `min_interval = 2` seconds apart. -/
def spacedTimes : List Int := (List.range 21).map (fun k => 100 + 2 * (k : Int))

/-! ## Path canonicalisation and the admin content write
(`admin_router` pending-edit branch, main.py 992-1014)

Paths are lists of segments.  `resolveSegs [] (base ++ rel)` is
`(base / rel).resolve()` on a symlink-free tree: `.` and empty segments are
dropped and `..` pops the last segment (popping at the root stays at the
root, as `Path.resolve` does).  The containment test
`base.resolve() in target.parents or base.resolve() == target` is
`isUnder baseR target`.
-/

/-- Lexical canonicalisation: fold segments onto `acc`, handling `.`, empty
segments and `..`. -/
def resolveSegs : List String → List String → List String
  | acc, [] => acc
  | acc, s :: rest =>
    if s = "" ∨ s = "." then resolveSegs acc rest
    else if s = ".." then resolveSegs acc.dropLast rest
    else resolveSegs (acc ++ [s]) rest

/-- `p` is the path `q` or an ancestor of it (segment-list containment). -/
def isUnder : List String → List String → Bool
  | [], _ => true
  | _ :: _, [] => false
  | a :: as, b :: bs => a == b && isUnder as bs

/-- The content tree touched by the admin editor: written files plus the
directories that `mkdir(parents=True)` created. -/
structure ContentFS where
  files : List (List String × String)
  dirs : List (List String)
deriving DecidableEq

/-- Content of the file at `p`, if any. -/
def readFile (fs : ContentFS) (p : List String) : Option String :=
  (fs.files.find? (fun e => e.1 == p)).map (fun e => e.2)

/-- `target.write_text(text)`: overwrite the file at `p`. -/
def writeFile (fs : ContentFS) (p : List String) (text : String) : ContentFS :=
  { fs with files := (p, text) :: fs.files.filter (fun e => !(e.1 == p)) }

/-- The non-empty initial segments of `p`. -/
def ancestors (p : List String) : List (List String) :=
  (List.range p.length).map (fun k => p.take (k + 1))

/-- `target.parent.mkdir(parents=True, exist_ok=True)`: record the parent
directory chain of `p`. -/
def mkdirParents (fs : ContentFS) (p : List String) : ContentFS :=
  { fs with dirs := ancestors p.dropLast ++ fs.dirs }

/-- The admin-visible text answered on a traversal attempt (main.py 999). -/
def badPathMsg : String := "Некорректный путь"

/-- Outcome of the pending-edit commit: the tree, whatever is left in
`ADMIN_EDIT_PENDING` for this admin, and the error answered, if any. -/
structure CommitResult where
  fs : ContentFS
  pending : Option (List String)
  errorMsg : Option String
deriving DecidableEq

/-- The pending-edit branch of `admin_router` (main.py 992-1014): resolve
`base / rel`, reject when the canonical target is not the base or below it
(answering `badPathMsg` and leaving the tree and the pending entry alone),
otherwise create parent directories, overwrite the file and clear the
pending entry. -/
def commitEdit (base : List String) (fs : ContentFS) (rel : List String)
    (text : String) : CommitResult :=
  let baseR := resolveSegs [] base
  let target := resolveSegs [] (base ++ rel)
  if isUnder baseR target then
    { fs := writeFile (mkdirParents fs target) target text
      pending := none
      errorMsg := none }
  else
    { fs := fs, pending := some rel, errorMsg := some badPathMsg }

/-! ## Access store (`db.py`)

The sqlite tables are modelled as a structure of maps: `users` (one row per
user id: `first_seen`, nullable `access_until`), `codes` (code to house id)
and the append-only `code_usage` log.  Timestamps are integer seconds;
`timedelta(days=d)` is `d * 86400` seconds.
-/

/-- One row of the `users` table. -/
structure UserRow where
  first_seen : Int
  access_until : Option Int
deriving DecidableEq

/-- The three tables the claims touch. -/
structure DB where
  users : Int → Option UserRow
  codes : Int → Option String
  usage : List (Int × Int × Int)

/-- `Database.upsert_user_access` (db.py 54-62): insert the user with
`access_until = now + days`, or on conflict overwrite only `access_until`
(the SQL `DO UPDATE SET access_until=excluded.access_until` keeps the old
`first_seen`). -/
def upsertUserAccess (db : DB) (uid days now : Int) : DB :=
  { db with users := fun u =>
      if u = uid then
        some { first_seen :=
                 match db.users uid with
                 | some r => r.first_seen
                 | none => now
               access_until := some (now + days * 86400) }
      else db.users u }

/-- Result of `Database.consume_code`. -/
structure ConsumeResult where
  ok : Bool
  houseId : Option String
  db : DB

/-- `Database.consume_code` (db.py 64-83): an unknown code returns
`(False, None)` before touching any table; a known code appends a usage-log
row `(code, user, now)`, upserts the user's access and returns the code's
house id.  The code row itself is never modified. -/
def consumeCode (db : DB) (code uid days now : Int) : ConsumeResult :=
  match db.codes code with
  | none => ⟨false, none, db⟩
  | some houseId =>
    ⟨true, some houseId,
      upsertUserAccess { db with usage := db.usage ++ [(code, uid, now)] }
        uid days now⟩

/-- The stored `access_until` of a user, if any. -/
def userAccess (db : DB) (uid : Int) : Option Int :=
  match db.users uid with
  | some r => r.access_until
  | none => none

/-! ## Code redemption step of the router (`process_code`, main.py 199-213) -/

/-- The aiogram FSM states the guest flow uses (`AuthStates` and
`ConciergeStates`); `none` below is a cleared FSM context. -/
inductive FSMState
  | waitingForCode
  | waitingForPhoto
  | conciergeMessage
  | conciergeMedia
deriving DecidableEq

/-- Kinds of keyword-matched guest text forwarded to the admins from the
authorised free-text branch of `text_router`. -/
inductive RelayKind
  | feedbackMsg
  | conciergeQuestion
deriving DecidableEq

/-- The outbound effects a handler performs, in order.  Message texts that a
claim compares are kept verbatim; long marketing texts are abbreviated to
their distinguishing head line. -/
inductive BotAction
  | answerText (t : String)
  | alertText (t : String)
  | cbAck
  | deleteMsg
  | renderContent (path : String)
  | showMainMenu
  | showGuidesMenu
  | showActivitiesMenu
  | showActivity (aid : String)
  | setReplyTarget (target : Int)
  | replyPrompt (target : Int)
  | listContentFiles
  | relayToAdmin (adminId : Int) (kind : RelayKind) (uid : Int) (body : String)
  | conciergeRelay (adminId uid : Int) (body : String)
  | mediaRelay (adminId uid : Int)
deriving DecidableEq

/-- `"Код должен быть числом. Попробуйте ещё раз."` (main.py 202). -/
def codeNotNumberMsg : String := "Код должен быть числом. Попробуйте ещё раз."

/-- `"Код неверный или уже использован. Проверьте и введите снова."`
(main.py 207). -/
def codeInvalidMsg : String := "Код неверный или уже использован. Проверьте и введите снова."

/-- Parse the submitted code the way `process_code` does:
`message.text.strip()` then `isdigit()` then `int(...)`. -/
def parseCode (text : String) : Option Int :=
  let cs := stripChars text.toList
  if isDigitsList cs then some ((digitsVal cs : Nat) : Int) else none

/-- What one guest-router invocation produces: the FSM state afterwards, the
database afterwards, and the outbound actions. -/
structure CodeStepResult where
  state : Option FSMState
  db : DB
  actions : List BotAction

/-- `process_code` (main.py 199-213): non-numeric input re-prompts and keeps
`waiting_for_code`; an unknown code re-prompts and keeps the state; a known
code clears the FSM state (`state.clear()`), confirms, and shows the main
menu. -/
def processCode (db : DB) (uid : Int) (text : String) (days now : Int) :
    CodeStepResult :=
  match parseCode text with
  | none => ⟨some .waitingForCode, db, [.answerText codeNotNumberMsg]⟩
  | some code =>
    let r := consumeCode db code uid days now
    if r.ok then
      ⟨none, r.db, [.answerText "Доступ предоставлен!", .showMainMenu]⟩
    else
      ⟨some .waitingForCode, r.db, [.answerText codeInvalidMsg]⟩

/-- Replace the house id associated with one code (used to state that the
router's outcome does not depend on it). -/
def setCodeHouse (db : DB) (code : Int) (h : String) : DB :=
  { db with codes := fun c => if c = code then some h else db.codes c }

/-! ## Guest-facing dispatch

`callback_router` (main.py 477-628), the non-admin path of `text_router`
(main.py 631-715), `media_router` (main.py 718-797) and the `on_media`
dispatcher (main.py 1094-1106).  The dispatcher registers `callback_router`
for every callback query with no authorisation gate (main.py 1090), and the
router itself consults the access store only in `text_router`.
-/

/-- `AUTH_MODE` env default. -/
def AUTH_MODE : String := "code"

/-- `"Недостаточно прав"`: the only permission-denied text, answered by the
two admin callback branches (main.py 484, 504). -/
def permDeniedMsg : String := "Недостаточно прав"

/-- The code prompt of the unauthorised-text branch (main.py 662). -/
def accessPromptMsg : String :=
  "Для доступа к боту введите, пожалуйста, ваш числовой код доступа:"

/-- `"Слишком часто. Подождите пару секунд и попробуйте снова."`
(main.py 310, 387). -/
def tooOftenMsg : String := "Слишком часто. Подождите пару секунд и попробуйте снова."

/-- Head line of the concierge-mode greeting (main.py 290). -/
def conciergeIntroMsg : String := "Режим консьержа активирован"

/-- Head line of the concierge delivery confirmation (main.py 347). -/
def conciergeSentMsg : String := "Сообщение отправлено администратору!"

/-- `"Администраторы сейчас недоступны. Попробуйте позже."` (main.py 375). -/
def adminsUnavailableMsg : String := "Администраторы сейчас недоступны. Попробуйте позже."

/-- Head line of the feedback prompt (main.py 601). -/
def feedbackPromptMsg : String := "Оставьте текст отзыва/сообщения."

/-- Thanks answered after a keyword-matched guest text is forwarded
(main.py 709, abbreviated head). -/
def relayThanksMsg : String := "Спасибо! Ваше сообщение отправлено администратору."

/-- `"Принято! Передал администраторам."` (main.py 797). -/
def mediaAcceptedMsg : String := "Принято! Передал администраторам."

/-- `is_concierge_question` keyword list (main.py 670-673). -/
def conciergeKeywords : List String :=
  ["вопрос", "помощь", "помогите", "как", "где", "когда", "что", "почему",
   "консьерж", "консьержу", "администратор", "админу"]

/-- `is_feedback` keyword list (main.py 675-677). -/
def feedbackKeywords : List String :=
  ["отзыв", "жалоба", "предложение", "идея", "комментарий", "мнение"]

/-- `text.lower().strip()` (main.py 667). -/
def normText (text : String) : List Char :=
  stripChars (text.toList.map lowerChar)

/-- `is_concierge_question` (main.py 670-673). -/
def isConciergeQuestion (text : String) : Bool :=
  conciergeKeywords.any (fun k => containsSub k.toList (normText text))

/-- `is_feedback` (main.py 675-677). -/
def isFeedbackText (text : String) : Bool :=
  containsSub "разрешаю публикацию".toList (normText text) ||
  feedbackKeywords.any (fun k => containsSub k.toList (normText text))

/-- Which relay, if any, the keyword branch performs: feedback takes
precedence inside `if is_concierge_question or is_feedback` (main.py
680-689). -/
def relayKind (text : String) : Option RelayKind :=
  if isFeedbackText text then some .feedbackMsg
  else if isConciergeQuestion text then some .conciergeQuestion
  else none

/-- The authorisation test used by `start_handler` and `text_router`
(main.py 655-657): a stored `access_until` strictly in the future. -/
def isAuthorized (db : DB) (uid now : Int) : Bool :=
  match db.users uid with
  | some r =>
    match r.access_until with
    | some t => decide (now < t)
    | none => false
  | none => false

/-- `callback_router` (main.py 477-628) for one inbound callback: given
whether the caller is an admin, the known guide and activity ids, the
caller's FSM state and the callback payload, produce the state afterwards
and the outbound actions.  The branch order follows the source.  The router
never consults the access store: authorisation plays no role in any
branch. -/
def handleCallback (admin : Bool) (guides acts : List String)
    (st : Option FSMState) (data : String) : Option FSMState × List BotAction :=
  if data = "admin_ls" then
    if admin then (st, [.listContentFiles, .deleteMsg, .cbAck])
    else (st, [.alertText permDeniedMsg])
  else if strHasInit "admin_reply:" data then
    if admin then
      let tcs := data.toList.drop 12
      if isDigitsList tcs then
        (st, [.setReplyTarget ((digitsVal tcs : Nat) : Int),
              .replyPrompt ((digitsVal tcs : Nat) : Int), .cbAck])
      else (st, [.alertText "Некорректный адресат"])
    else (st, [.alertText permDeniedMsg])
  else if data = "back_main" then (st, [.showMainMenu, .deleteMsg, .cbAck])
  else if data = "concierge" then
    (some .conciergeMessage, [.answerText conciergeIntroMsg, .deleteMsg, .cbAck])
  else if data = "concierge_cancel" then
    (none, [.answerText "Режим консьержа отменен.", .showMainMenu, .deleteMsg, .cbAck])
  else if data = "concierge_finish" then
    (none, [.answerText "Диалог завершен", .showMainMenu, .deleteMsg, .cbAck])
  else if data = "rules_house" then
    (st, [.renderContent "texts/rules_house.md", .cbAck])
  else if data = "rules_inventory" then
    (st, [.renderContent "texts/rules_inventory.md", .cbAck])
  else if data = "howto" then (st, [.showGuidesMenu, .deleteMsg, .cbAck])
  else if strHasInit "guide:" data then
    let gid := strDropChars data 6
    if guides.contains gid then
      (st, [.renderContent ("guides/" ++ gid ++ ".md"), .cbAck])
    else (st, [.alertText "Не найдено"])
  else if data = "activities" then (st, [.showActivitiesMenu, .deleteMsg, .cbAck])
  else if strHasInit "activity:" data then
    let aid := strDropChars data 9
    if acts.contains aid then (st, [.showActivity aid, .deleteMsg, .cbAck])
    else (st, [.alertText "Не найдено"])
  else if data = "map" then (st, [.renderContent "texts/map.md", .cbAck])
  else if data = "feedback" then
    (st, [.answerText feedbackPromptMsg, .deleteMsg, .cbAck])
  else if data = "specials" then (st, [.renderContent "texts/specials.md", .cbAck])
  else if data = "buy_house" then (st, [.renderContent "texts/buy_house.md", .cbAck])
  else if data = "buy_furniture" then
    (st, [.renderContent "texts/buy_furniture.md", .cbAck])
  else if data = "about" then (st, [.renderContent "texts/about.md", .cbAck])
  else (st, [])

/-- What one guest event produces: FSM state, database, this user's rate
record and the outbound actions. -/
structure RouterResult where
  state : Option FSMState
  db : DB
  rl : Option RLRec
  actions : List BotAction

/-- `handle_concierge_message` (main.py 304-379), with every admin delivery
succeeding: rate-limit first (a rejection answers `tooOftenMsg` and changes
nothing else); with admins configured the text is fanned out to each admin
and the state moves to `waiting_for_media`; with no admins the state is
cleared. -/
def conciergeMessageStep (db : DB) (uid now : Int) (rl : Option RLRec)
    (admins : List Int) (st : Option FSMState) (text : String) : RouterResult :=
  let res := allowConciergeMessage conciergeRLDefaults rl now
  if res.1 = false then ⟨st, db, res.2, [.answerText tooOftenMsg]⟩
  else if admins.isEmpty then
    ⟨none, db, res.2, [.answerText adminsUnavailableMsg]⟩
  else
    ⟨some .conciergeMedia, db, res.2,
      admins.map (fun a => .conciergeRelay a uid text) ++
        [.answerText conciergeSentMsg]⟩

/-- `handle_concierge_media` (main.py 382-474), with every admin delivery
succeeding: rate-limit first; with admins configured the media is fanned out
and the state is left as it is; with no admins the state is cleared. -/
def conciergeMediaStep (db : DB) (uid now : Int) (rl : Option RLRec)
    (admins : List Int) (st : Option FSMState) : RouterResult :=
  let res := allowConciergeMessage conciergeRLDefaults rl now
  if res.1 = false then ⟨st, db, res.2, [.answerText tooOftenMsg]⟩
  else if admins.isEmpty then
    ⟨none, db, res.2, [.answerText adminsUnavailableMsg]⟩
  else
    ⟨st, db, res.2,
      admins.map (fun a => .mediaRelay a uid) ++ [.answerText conciergeSentMsg]⟩

/-- The non-admin path of `text_router` (main.py 638-715): code entry and
concierge states first, then the authorisation gate (redirect to
`waiting_for_code` with the code prompt), then the keyword relay, else just
the main menu. -/
def textRouterGuest (db : DB) (uid now days : Int) (rl : Option RLRec)
    (admins : List Int) (st : Option FSMState) (text : String) : RouterResult :=
  if st = some .waitingForCode then
    let r := processCode db uid text days now
    ⟨r.state, r.db, rl, r.actions⟩
  else if st = some .conciergeMessage ∨ st = some .conciergeMedia then
    conciergeMessageStep db uid now rl admins st text
  else if isAuthorized db uid now = false ∧ AUTH_MODE = "code" then
    ⟨some .waitingForCode, db, rl, [.answerText accessPromptMsg]⟩
  else
    match relayKind text with
    | some k =>
      ⟨st, db, rl,
        admins.map (fun a => .relayToAdmin a k uid text) ++
          [.answerText relayThanksMsg, .showMainMenu]⟩
    | none => ⟨st, db, rl, [.showMainMenu]⟩

/-- An inbound guest message carrying media (`F.photo | F.video`). -/
inductive Msg
  | text (t : String)
  | photo (fileId : String) (caption : Option String)
  | video (fileId : String) (caption : Option String)
deriving DecidableEq

/-- `media_router` (main.py 718-797): forward the media to every admin — with
no authorisation check — then answer `mediaAcceptedMsg`. -/
def mediaRouterGuest (admins : List Int) (uid : Int) : List BotAction :=
  admins.map (fun a => .mediaRelay a uid) ++ [.answerText mediaAcceptedMsg]

/-- The non-admin path of the `on_media` dispatcher (main.py 1098-1104):
concierge states go to `handle_concierge_media`, everything else to
`media_router`. -/
def mediaDispatchGuest (db : DB) (uid now : Int) (rl : Option RLRec)
    (admins : List Int) (st : Option FSMState) : RouterResult :=
  if st = some .conciergeMessage ∨ st = some .conciergeMedia then
    conciergeMediaStep db uid now rl admins st
  else ⟨st, db, rl, mediaRouterGuest admins uid⟩

/-- One inbound event from a guest. -/
inductive InEvent
  | cbEvent (data : String)
  | textEvent (t : String)
  | mediaEvent (m : Msg)

/-- The dispatcher as registered in `main()` (main.py 1088-1106), restricted
to a non-admin caller: callback queries go to `callback_router`
unconditionally, texts to `text_router`, media to the `on_media` guest
path. -/
def handleGuestEvent (db : DB) (uid now days : Int) (rl : Option RLRec)
    (admins : List Int) (guides acts : List String) (st : Option FSMState)
    (ev : InEvent) : RouterResult :=
  match ev with
  | .cbEvent data =>
    let r := handleCallback false guides acts st data
    ⟨r.1, db, rl, r.2⟩
  | .textEvent t => textRouterGuest db uid now days rl admins st t
  | .mediaEvent _ => mediaDispatchGuest db uid now rl admins st

/-! ## Admin pending-reply step (`admin_router`, main.py 861-875) -/

/-- `"Вам пришло сообщение от консьержа!\n\n"`, the header prepended to every
forwarded reply (main.py 865, 867, 870). -/
def conciergeReplyHeader : String := "Вам пришло сообщение от консьержа!\n\n"

/-- A message delivered to the target user by the reply step. -/
inductive Sent
  | toUserText (chat : Int) (body : String)
  | toUserPhoto (chat : Int) (fileId : String) (caption : String)
  | toUserVideo (chat : Int) (fileId : String) (caption : String)
deriving DecidableEq

/-- The single delivery the reply branch performs for each message shape:
text, photo and video all get `conciergeReplyHeader` prepended to the text
or caption (main.py 864-871). -/
def adminReplyForward (target : Int) (m : Msg) : List Sent :=
  match m with
  | .text s => [.toUserText target (conciergeReplyHeader ++ s)]
  | .photo fid cap => [.toUserPhoto target fid (conciergeReplyHeader ++ cap.getD "")]
  | .video fid cap => [.toUserVideo target fid (conciergeReplyHeader ++ cap.getD "")]

/-- The pending-reply branch of `admin_router` (main.py 861-875):
`ADMIN_REPLY_TARGET.get(user.id)` is `replyTarget`; a truthy target enters
the branch, forwards once inside `try`, and the `finally` pops the target
even when the send raises (`sendRaises`).  A falsy target (absent, or the
never-issued id 0) skips the branch, forwarding nothing. -/
def adminReplyStep (replyTarget : Option Int) (m : Msg) (sendRaises : Bool) :
    Option Int × List Sent :=
  match replyTarget with
  | some t =>
    if t ≠ 0 then
      if sendRaises then (none, [])
      else (none, adminReplyForward t m)
    else (replyTarget, [])
  | none => (none, [])

/-- A store in which user 42 holds access until time 2000 and no codes
exist. -/
def dbAuthed : DB :=
  ⟨fun u => if u = 42 then some ⟨0, some 2000⟩ else none, fun _ => none, []⟩

/-- The empty store. -/
def dbEmpty : DB := ⟨fun _ => none, fun _ => none, []⟩

/-! ## Claim theorems: rate limiter and traversal safety -/

/-- C3 counterexample: with the configured limits
(`min_interval = 2 s, window = 60 s, max = 20`), 21 concierge messages from
one user at the same instant are *not* answered with 20 accepted and 1
rejected: the 2-second minimum-interval gate rejects every same-instant
repeat, so exactly 1 of the 21 is accepted. -/
theorem rl_same_instant_accepts_one :
    (runConcierge conciergeRLDefaults none (List.replicate 21 100)).1 = 1 ∧
    (1 : Nat) ≠ 20 := by
  decide

/-- C3 (amended): under `min_interval = 2 s, window = 60 s, max = 20`:
21 same-instant messages yield exactly 1 acceptance (the min-interval gate
rejects same-instant repeats); 21 messages spaced exactly 2 s apart within
the window yield exactly 20 acceptances with the 21st rejected; and once
time advances past the window length, the window resets and the next
message is accepted with a fresh count of 1. -/
theorem rl_window_behaviour :
    (runConcierge conciergeRLDefaults none (List.replicate 21 100)).1 = 1 ∧
    (runConcierge conciergeRLDefaults none spacedTimes).1 = 20 ∧
    (allowConciergeMessage conciergeRLDefaults
      (runConcierge conciergeRLDefaults none spacedTimes).2 140).1 = false ∧
    (allowConciergeMessage conciergeRLDefaults
      (runConcierge conciergeRLDefaults none spacedTimes).2 201) =
      (true, some ⟨201, 1, 201⟩) := by
  decide

/-- C10: whenever the concierge limiter rejects a message — by the
minimum-interval gate or by the per-window cap — the user's rate record
(first-seen timestamp, count, last-message timestamp) is returned unchanged,
so rejected messages never count toward the window and never postpone the
minimum interval. -/
theorem rl_reject_leaves_record_unchanged (cfg : RLConfig) (rec : Option RLRec)
    (now : Int) (h : (allowConciergeMessage cfg rec now).1 = false) :
    (allowConciergeMessage cfg rec now).2 = rec := by
  cases rec with
  | none => simp [allowConciergeMessage] at h
  | some r =>
    simp only [allowConciergeMessage] at h ⊢
    split_ifs at h ⊢ with h1 h2 h3 <;> simp_all

/-- Concrete check for `rl_reject_leaves_record_unchanged`: a second message
one second after the first is rejected and the record is untouched. -/
theorem rl_reject_leaves_record_unchanged_check :
    (allowConciergeMessage conciergeRLDefaults (some ⟨100, 1, 100⟩) 101).1 = false ∧
    (allowConciergeMessage conciergeRLDefaults (some ⟨100, 1, 100⟩) 101).2 =
      some ⟨100, 1, 100⟩ := by
  exact ⟨by decide,
    rl_reject_leaves_record_unchanged conciergeRLDefaults (some ⟨100, 1, 100⟩) 101
      (by decide)⟩

/-- C1: committing a pending content edit canonicalises `base / rel`; if the
canonical target escapes the house base directory the commit is rejected
with the user-visible error `badPathMsg` and the content tree is returned
exactly as it was (no file written, no directory created, the pending entry
retained); if the canonical target lies strictly inside the base directory,
the new text is written at that target. -/
theorem commit_edit_traversal_safe (base rel : List String) (fs : ContentFS)
    (text : String) :
    (isUnder (resolveSegs [] base) (resolveSegs [] (base ++ rel)) = false →
      commitEdit base fs rel text =
        { fs := fs, pending := some rel, errorMsg := some badPathMsg }) ∧
    (isUnder (resolveSegs [] base) (resolveSegs [] (base ++ rel)) = true ∧
        resolveSegs [] (base ++ rel) ≠ resolveSegs [] base →
      (commitEdit base fs rel text).errorMsg = none ∧
      readFile (commitEdit base fs rel text).fs
        (resolveSegs [] (base ++ rel)) = some text) := by
  constructor
  · intro h
    simp [commitEdit, h]
  · rintro ⟨h, -⟩
    simp [commitEdit, h, readFile, writeFile, List.find?]

/-- Concrete check for `commit_edit_traversal_safe`: a `../../..`-style
escape to `etc/passwd` is rejected leaving an empty tree empty, and an
in-tree path is written. -/
theorem commit_edit_traversal_safe_check :
    commitEdit ["srv", "content", "house1"] ⟨[], []⟩
        ["..", "..", "..", "..", "etc", "passwd"] "x" =
      { fs := ⟨[], []⟩
        pending := some ["..", "..", "..", "..", "etc", "passwd"]
        errorMsg := some badPathMsg } ∧
    readFile (commitEdit ["srv", "content", "house1"] ⟨[], []⟩
        ["texts", "about.md"] "new text").fs
      (resolveSegs [] (["srv", "content", "house1"] ++ ["texts", "about.md"])) =
      some "new text" := by
  refine ⟨(commit_edit_traversal_safe _ _ _ _).1 (by decide), ?_⟩
  exact ((commit_edit_traversal_safe ["srv", "content", "house1"]
    ["texts", "about.md"] ⟨[], []⟩ "new text").2 ⟨by decide, by decide⟩).2

/-! ## Claim theorems: code redemption -/

/-- C4: redeeming any code present in the code table sets the user's
`access_until` to exactly `now + grant_days` (in seconds,
`now + days * 86400`) — the statement holds for every prior database, so an
existing later expiry is reset, never extended — and the session leaves
`AwaitingCode` for the main menu (FSM state cleared, menu shown). -/
theorem redeem_resets_access (db : DB) (uid days now code : Int) (h : String)
    (text : String) (htxt : parseCode text = some code)
    (hcode : db.codes code = some h) :
    (processCode db uid text days now).state = none ∧
    BotAction.showMainMenu ∈ (processCode db uid text days now).actions ∧
    userAccess (processCode db uid text days now).db uid =
      some (now + days * 86400) := by
  simp [processCode, htxt, consumeCode, hcode, upsertUserAccess, userAccess]

/-- Concrete check for `redeem_resets_access`: user 7 already holds access
until 99 999 999, yet redeeming code 1000 resets the expiry to
`500 + 30 * 86400`. -/
theorem redeem_resets_access_check :
    userAccess
        (processCode
          ⟨fun u => if u = 7 then some ⟨0, some 99999999⟩ else none,
           fun c => if c = 1000 then some "h1" else none, []⟩
          7 "1000" 30 500).db 7 = some (500 + 30 * 86400) :=
  (redeem_resets_access
    ⟨fun u => if u = 7 then some ⟨0, some 99999999⟩ else none,
     fun c => if c = 1000 then some "h1" else none, []⟩
    7 30 500 1000 "h1" "1000" (by decide) (by decide)).2.2

/-- C5: redeeming a code absent from the code table returns not-ok with no
house id and the database untouched (no usage-log row, no `access_until`
change), and the router keeps the session in `AwaitingCode` while emitting
the correction prompt. -/
theorem unknown_code_rejected (db : DB) (uid days now code : Int)
    (text : String) (htxt : parseCode text = some code)
    (hcode : db.codes code = none) :
    consumeCode db code uid days now = ⟨false, none, db⟩ ∧
    processCode db uid text days now =
      ⟨some .waitingForCode, db, [.answerText codeInvalidMsg]⟩ := by
    simp [processCode, htxt, consumeCode, hcode]

/-- Concrete check for `unknown_code_rejected`: code 4242 on an empty
database. -/
theorem unknown_code_rejected_check :
    consumeCode ⟨fun _ => none, fun _ => none, []⟩ 4242 7 30 500 =
      ⟨false, none, ⟨fun _ => none, fun _ => none, []⟩⟩ ∧
    processCode ⟨fun _ => none, fun _ => none, []⟩ 7 "4242" 30 500 =
      ⟨some .waitingForCode, ⟨fun _ => none, fun _ => none, []⟩,
        [.answerText codeInvalidMsg]⟩ :=
  unknown_code_rejected ⟨fun _ => none, fun _ => none, []⟩ 7 30 500 4242 "4242"
    (by decide) (by decide)

/-- C6: a code present in the table can be redeemed twice — by the same or
different users — succeeding both times; the usage log gains exactly the two
rows `(code, user, timestamp)` and the code row is still present (and thus
redeemable) afterwards. -/
theorem code_reusable (db : DB) (code u1 u2 d1 d2 t1 t2 : Int) (h : String)
    (hcode : db.codes code = some h) :
    (consumeCode db code u1 d1 t1).ok = true ∧
    (consumeCode (consumeCode db code u1 d1 t1).db code u2 d2 t2).ok = true ∧
    (consumeCode (consumeCode db code u1 d1 t1).db code u2 d2 t2).db.usage =
      db.usage ++ [(code, u1, t1), (code, u2, t2)] ∧
    (consumeCode (consumeCode db code u1 d1 t1).db code u2 d2 t2).db.codes
      code = some h := by
  simp [consumeCode, hcode, upsertUserAccess]

/-- Concrete check for `code_reusable`: users 7 and 8 both redeem code 1000;
the log holds both rows and the code survives. -/
theorem code_reusable_check :
    (consumeCode
        (consumeCode ⟨fun _ => none, fun c => if c = 1000 then some "h1" else none, []⟩
          1000 7 30 500).db
        1000 8 30 600).db.usage = [(1000, 7, 500), (1000, 8, 600)] :=
  (code_reusable ⟨fun _ => none, fun c => if c = 1000 then some "h1" else none, []⟩
    1000 7 8 30 30 500 600 "h1" (by decide)).2.2.1

/-- C9: the router discards the house id `consume_code` returns: redeeming a
code succeeds and grants this deployment's access whatever house id the code
carries, and the router's visible outcome (state and actions) is identical
for any two house ids. -/
theorem house_id_discarded (db : DB) (uid days now code : Int) (text : String)
    (h1 h2 : String) (htxt : parseCode text = some code) :
    (processCode (setCodeHouse db code h1) uid text days now).state = none ∧
    BotAction.showMainMenu ∈
      (processCode (setCodeHouse db code h1) uid text days now).actions ∧
    userAccess (processCode (setCodeHouse db code h1) uid text days now).db
      uid = some (now + days * 86400) ∧
    (processCode (setCodeHouse db code h1) uid text days now).state =
      (processCode (setCodeHouse db code h2) uid text days now).state ∧
    (processCode (setCodeHouse db code h1) uid text days now).actions =
      (processCode (setCodeHouse db code h2) uid text days now).actions := by
  simp [processCode, htxt, consumeCode, setCodeHouse, upsertUserAccess,
    userAccess]

/-- Concrete check for `house_id_discarded`: code 1000 tagged with the
foreign namespace `"other_house"` still unlocks this deployment. -/
theorem house_id_discarded_check :
    (processCode (setCodeHouse ⟨fun _ => none, fun _ => none, []⟩ 1000 "other_house")
        7 "1000" 30 500).state = none ∧
    userAccess
      (processCode (setCodeHouse ⟨fun _ => none, fun _ => none, []⟩ 1000 "other_house")
        7 "1000" 30 500).db 7 = some (500 + 30 * 86400) := by
  have h := house_id_discarded ⟨fun _ => none, fun _ => none, []⟩ 7 30 500 1000
    "1000" "other_house" "h1" (by decide)
  exact ⟨h.1, h.2.2.1⟩

/-! ## Claim theorems: dispatch and reply -/

/-- C2 counterexample: user 42 has no valid access, yet their
`rules_house` menu callback is processed by `callback_router` — the content
is rendered and the state is not redirected to `AwaitingCode` — because the
dispatcher registers the callback router with no authorisation gate and the
router never consults the access store. -/
theorem unauth_callback_renders_content :
    isAuthorized dbEmpty 42 1000 = false ∧
    (handleGuestEvent dbEmpty 42 1000 30 none [111] [] [] none
      (.cbEvent "rules_house")).state ≠ some FSMState.waitingForCode ∧
    BotAction.renderContent "texts/rules_house.md" ∈
      (handleGuestEvent dbEmpty 42 1000 30 none [111] [] [] none
        (.cbEvent "rules_house")).actions := by
  decide

/-- C2 (amended): the `AwaitingCode` redirect is enforced only for plain text
messages: a non-admin text from a user without valid access, outside the
code-entry and concierge states, always moves the session to
`waiting_for_code` with the code prompt and nothing else (no relay, no
render, store untouched).  Callback queries are dispatched with no
authorisation check, so an unauthenticated user's menu callback is processed
normally — e.g. `rules_house` renders its content. -/
theorem text_auth_redirect (db : DB) (uid now days : Int) (rl : Option RLRec)
    (admins : List Int) (st : Option FSMState) (text : String)
    (hauth : isAuthorized db uid now = false)
    (h1 : st ≠ some FSMState.waitingForCode)
    (h2 : st ≠ some FSMState.conciergeMessage)
    (h3 : st ≠ some FSMState.conciergeMedia) :
    textRouterGuest db uid now days rl admins st text =
      ⟨some .waitingForCode, db, rl, [.answerText accessPromptMsg]⟩ ∧
    handleCallback false [] [] none "rules_house" =
      (none, [.renderContent "texts/rules_house.md", .cbAck]) := by
  refine ⟨?_, by decide⟩
  simp [textRouterGuest, h1, h2, h3, hauth, AUTH_MODE]

/-- Concrete check for `text_auth_redirect`: an unauthenticated greeting is
answered with the code prompt and the state moves to `waiting_for_code`. -/
theorem text_auth_redirect_check :
    textRouterGuest dbEmpty 42 1000 30 none [111] none "привет" =
      ⟨some .waitingForCode, dbEmpty, none, [.answerText accessPromptMsg]⟩ :=
  (text_auth_redirect dbEmpty 42 1000 30 none [111] none "привет"
    (by decide) (by decide) (by decide) (by decide)).1

/-- C7 counterexample: with a pending reply target, an admin's text
`"Привет"` is delivered to the target with the fixed concierge header
prepended — not verbatim: the delivered body differs from the admin's
message. -/
theorem admin_reply_not_verbatim :
    (adminReplyStep (some 555) (.text "Привет") false).2 =
      [Sent.toUserText 555 (conciergeReplyHeader ++ "Привет")] ∧
    conciergeReplyHeader ++ "Привет" ≠ "Привет" := by
  decide

/-- C7 (amended): for every admin with a pending reply target (a nonzero
user id), the next message handled by the admin router — text, photo or
video — is forwarded to the target once with the fixed header
`conciergeReplyHeader` prepended to its text or caption, and the pending
target is cleared even if the delivery raises, so at most one reply is
delivered and a following message is no longer forwarded. -/
theorem admin_reply_clears_target (t : Int) (m : Msg) (raises : Bool)
    (ht : t ≠ 0) :
    (adminReplyStep (some t) m raises).1 = none ∧
    (adminReplyStep (some t) m raises).2.length ≤ 1 ∧
    (raises = false →
      (adminReplyStep (some t) m raises).2 = adminReplyForward t m) ∧
    (adminReplyStep (adminReplyStep (some t) m raises).1 m false).2 = [] := by
  cases raises <;> cases m <;> simp [adminReplyStep, adminReplyForward, ht]

/-- Concrete check for `admin_reply_clears_target`: even when the delivery
raises, the pending target is cleared and the following message is not
forwarded. -/
theorem admin_reply_clears_target_check :
    (adminReplyStep (some 555) (.text "hi") true).1 = none ∧
    (adminReplyStep (adminReplyStep (some 555) (.text "hi") true).1
      (.text "hi") false).2 = [] := by
  have h := admin_reply_clears_target 555 (.text "hi") true (by decide)
  exact ⟨h.1, h.2.2.2⟩

/-- C8 counterexample: authorised non-admin user 42 sends `/admin`; the bot
answers with the main menu only — no permission-denied message is produced
(the claim's promised `permDeniedMsg` appears nowhere in the actions). -/
theorem admin_command_no_perm_denied :
    isAuthorized dbAuthed 42 1000 = true ∧
    (textRouterGuest dbAuthed 42 1000 30 none [111] none "/admin").actions =
      [.showMainMenu] ∧
    BotAction.alertText permDeniedMsg ∉
      (textRouterGuest dbAuthed 42 1000 30 none [111] none "/admin").actions ∧
    BotAction.answerText permDeniedMsg ∉
      (textRouterGuest dbAuthed 42 1000 30 none [111] none "/admin").actions := by
  decide

/-- C8 (amended): a non-admin sending `/admin`, `/ls`, `/put <path>`,
`/photo <path>` or `/delpic <path>` never reaches the admin router, so the
admin operation is never performed; but no permission-denied message is sent
either: an authorised non-admin just gets the main menu (an unauthenticated
one gets the code prompt, per the text-router gate).  Only the admin inline
callbacks (`admin_ls`, `admin_reply:`) answer `permDeniedMsg` to
non-admins. -/
theorem admin_commands_fall_through (db : DB) (uid now days : Int)
    (rl : Option RLRec) (admins : List Int) (cmd : String)
    (hcmd : cmd = "/admin" ∨ cmd = "/ls" ∨ cmd = "/put texts/about.md" ∨
      cmd = "/photo texts/about.md" ∨ cmd = "/delpic texts/about.md")
    (hauth : isAuthorized db uid now = true) :
    textRouterGuest db uid now days rl admins none cmd =
      ⟨none, db, rl, [.showMainMenu]⟩ ∧
    handleCallback false [] [] none "admin_ls" =
      (none, [.alertText permDeniedMsg]) := by
  refine ⟨?_, by decide⟩
  have k1 : relayKind "/admin" = none := by decide
  have k2 : relayKind "/ls" = none := by decide
  have k3 : relayKind "/put texts/about.md" = none := by decide
  have k4 : relayKind "/photo texts/about.md" = none := by decide
  have k5 : relayKind "/delpic texts/about.md" = none := by decide
  rcases hcmd with rfl | rfl | rfl | rfl | rfl <;>
    simp [textRouterGuest, hauth, k1, k2, k3, k4, k5]

/-- Concrete check for `admin_commands_fall_through`: authorised non-admin
user 42 sends `/ls` and gets only the main menu. -/
theorem admin_commands_fall_through_check :
    textRouterGuest dbAuthed 42 1000 30 none [111] none "/ls" =
      ⟨none, dbAuthed, none, [.showMainMenu]⟩ :=
  (admin_commands_fall_through dbAuthed 42 1000 30 none [111] "/ls"
    (Or.inr (Or.inl rfl)) (by decide)).1
